import Mathlib

/-
Verification of the aqoo VPS provisioning tool (danishzzx/aqoo).

This file gives a shallow embedding of the core of the repository:

* `src/sshOperations.js` — the remote provisioning workflow (`setupVPSUser`,
  `executeSSHCommand`, `generateSSHKeyPair`, `testNewUserConnection`),
* `src/sshConfig.js` — the SSH configuration text grammar (`parseSSHConfig`),
* the post-setup confirmation fragment of `src/setup.js` (`setupVPS`).

Remote execution is modelled by an oracle `ExecEnv : String → Except String
CmdResult`: `executeSSHCommand` resolves with an exit code and both output
buffers (`Except.ok`), or rejects when the exec channel itself errors
(`Except.error`).  A non-zero exit code is data, not a rejection, exactly as
in the JavaScript.  The workflow functions additionally return the list of
command strings issued to the remote session, in order, so that theorems can
speak about which remote commands a run performs.

JavaScript string primitives used by the source (`trim`, `includes`,
`split('\n')`, `parseInt(v, 10)`, the regular expressions of the config
grammar) are embedded as structurally recursive Lean functions on `List Char`
so that every definition evaluates inside the kernel.
-/

set_option autoImplicit false

namespace Aqoo

/-! ## JavaScript string primitives -/

/-- The characters matched by JavaScript `\s` (and trimmed by `trim()`):
WhiteSpace ∪ LineTerminator, per ECMA-262. -/
def isJsWhitespace (c : Char) : Bool :=
  c = ' ' || c = '\t' || c = '\n' || c.toNat = 0x0B || c.toNat = 0x0C ||
  c = '\r' || c.toNat = 0xA0 || c.toNat = 0x1680 ||
  (0x2000 ≤ c.toNat && c.toNat ≤ 0x200A) ||
  c.toNat = 0x2028 || c.toNat = 0x2029 || c.toNat = 0x202F ||
  c.toNat = 0x205F || c.toNat = 0x3000 || c.toNat = 0xFEFF

/-- The characters matched by `.` in a JavaScript regex (anything except a
LineTerminator). -/
def isDotChar (c : Char) : Bool :=
  !(c = '\n' || c = '\r' || c.toNat = 0x2028 || c.toNat = 0x2029)

/-- The characters matched by `\w` in a JavaScript regex. -/
def isWordChar (c : Char) : Bool :=
  ('a' ≤ c && c ≤ 'z') || ('A' ≤ c && c ≤ 'Z') || ('0' ≤ c && c ≤ '9') || c = '_'

/-- JavaScript `String.prototype.trim`. -/
def jsTrimList (l : List Char) : List Char :=
  ((l.dropWhile isJsWhitespace).reverse.dropWhile isJsWhitespace).reverse

/-- JavaScript `String.prototype.trim`, on `String`. -/
def jsTrim (s : String) : String := ⟨jsTrimList s.data⟩

/-- Substring containment on character lists. -/
def containsSub (p : List Char) : List Char → Bool
  | [] => p.isEmpty
  | c :: cs => p.isPrefixOf (c :: cs) || containsSub p cs

/-- JavaScript `String.prototype.includes`. -/
def jsIncludes (s pat : String) : Bool := containsSub pat.data s.data

/-- JavaScript `String.prototype.split('\n')` (structural, so it evaluates
in the kernel; `String.splitOn` is defined by well-founded recursion and
does not). -/
def splitNlAux : List Char → List Char → List (List Char)
  | [], acc => [acc.reverse]
  | c :: rest, acc =>
    if c = '\n' then acc.reverse :: splitNlAux rest []
    else splitNlAux rest (c :: acc)

/-- `content.split('\n')` from the parser loop. -/
def splitLines (s : String) : List String :=
  (splitNlAux s.data []).map (fun l => ⟨l⟩)

/-! ## RemoteSession: `executeSSHCommand` results -/

/-- The `{ code, stdout, stderr }` object with which `executeSSHCommand`
resolves on stream close (`src/sshOperations.js`). -/
structure CmdResult where
  code : Int
  stdout : String
  stderr : String
deriving DecidableEq

/-- A remote session, as observed by the workflow: each command string is
executed by `executeSSHCommand`, which either resolves with a `CmdResult`
(`Except.ok`, non-zero exit codes included) or rejects with the exec
channel's error (`Except.error`). -/
def ExecEnv : Type := String → Except String CmdResult

/-! ## The exact remote command strings issued by `setupVPSUser` -/

/-- `id ${username} 2>/dev/null || echo "not_found"` — the user-existence
probe. -/
def checkUserCmd (u : String) : String :=
  "id " ++ u ++ " 2>/dev/null || echo \"not_found\""

/-- `sudo useradd -m -s /bin/bash ${username}` — user creation. -/
def createUserCmd (u : String) : String :=
  "sudo useradd -m -s /bin/bash " ++ u

/-- The `sudoCommands` array of `setupVPSUser`: privilege-grant commands,
each executed inside its own try/catch that discards the failure. -/
def sudoCommands (u : String) : List String :=
  [ "sudo usermod -aG sudo " ++ u,
    "sudo usermod -aG wheel " ++ u,
    "echo \"" ++ u ++ " ALL=(ALL) NOPASSWD:ALL\" | sudo tee /etc/sudoers.d/" ++ u,
    "sudo chmod 0440 /etc/sudoers.d/" ++ u ]

/-- The `sshSetupCommands` array of `setupVPSUser`: SSH directory and
authorized-keys installation. -/
def sshSetupCommands (u pk : String) : List String :=
  [ "sudo mkdir -p /home/" ++ u ++ "/.ssh",
    "echo \"" ++ pk ++ "\" | sudo tee /home/" ++ u ++ "/.ssh/authorized_keys",
    "sudo chown -R " ++ u ++ ":" ++ u ++ " /home/" ++ u ++ "/.ssh",
    "sudo chmod 700 /home/" ++ u ++ "/.ssh",
    "sudo chmod 600 /home/" ++ u ++ "/.ssh/authorized_keys" ]

/-- `sudo ls -la /home/${username}/.ssh/authorized_keys` — the verification
command whose exit code is checked. -/
def verifySetupCmd (u : String) : String :=
  "sudo ls -la /home/" ++ u ++ "/.ssh/authorized_keys"

/-- The outer catch of `setupVPSUser` rethrows every failure as
`VPS setup failed: ${error.message}`. -/
def vpsSetupFailed (msg : String) : String := "VPS setup failed: " ++ msg

/-- Sequential execution of a list of required commands (the
`for (const cmd of sshSetupCommands)` loop: each command is awaited, and a
rejection aborts the loop).  Returns the commands actually issued, in
order, and the first rejection message if any. -/
def runSeq (env : ExecEnv) : List String → List String × Option String
  | [] => ([], none)
  | c :: cs =>
    match env c with
    | Except.error e => ([c], some e)
    | Except.ok _ =>
      let r := runSeq env cs
      (c :: r.1, r.2)

/-- `setupVPSUser(conn, username, publicKey, spinner)` from
`src/sshOperations.js`, over the remote-execution oracle.  Returns the list
of remote commands issued, in order, together with the JS result: `.ok true`
on success, `.error msg` for the rethrown message of the outer catch.

Faithful points: the probe aborts when its stdout does not contain
`not_found`; the `useradd` result object is discarded (its exit code is not
inspected); each `sudoCommands` entry is executed with its failure caught
and discarded; each `sshSetupCommands` entry is awaited without a
per-command catch, so only a rejection aborts; the final verification
rejects the run when its exit code is non-zero. -/
def setupVPSUser (env : ExecEnv) (username publicKey : String) :
    List String × Except String Bool :=
  match env (checkUserCmd username) with
  | Except.error e => ([checkUserCmd username], Except.error (vpsSetupFailed e))
  | Except.ok checkUser =>
    if !(jsIncludes checkUser.stdout "not_found") then
      ([checkUserCmd username],
       Except.error (vpsSetupFailed ("User " ++ username ++ " already exists on the VPS")))
    else
      match env (createUserCmd username) with
      | Except.error e =>
        ([checkUserCmd username, createUserCmd username], Except.error (vpsSetupFailed e))
      | Except.ok _ =>
        -- best-effort privilege grant: every command is issued, every
        -- result (rejections included) is discarded
        let _sudoResults := (sudoCommands username).map env
        match runSeq env (sshSetupCommands username publicKey) with
        | (tr, some e) =>
          (checkUserCmd username :: createUserCmd username :: (sudoCommands username ++ tr),
           Except.error (vpsSetupFailed e))
        | (tr, none) =>
          match env (verifySetupCmd username) with
          | Except.error e =>
            (checkUserCmd username :: createUserCmd username ::
               (sudoCommands username ++ tr ++ [verifySetupCmd username]),
             Except.error (vpsSetupFailed e))
          | Except.ok verify =>
            if verify.code ≠ 0 then
              (checkUserCmd username :: createUserCmd username ::
                 (sudoCommands username ++ tr ++ [verifySetupCmd username]),
               Except.error (vpsSetupFailed "Failed to verify SSH key setup"))
            else
              (checkUserCmd username :: createUserCmd username ::
                 (sudoCommands username ++ tr ++ [verifySetupCmd username]),
               Except.ok true)

/-- An execution oracle for the C1 witness: the probe reports the user
exists (`id` succeeds, so stdout lacks `not_found`). -/
def envExists : ExecEnv := fun c =>
  if c = checkUserCmd "alice" then
    Except.ok ⟨0, "uid=1001(alice) gid=1001(alice) groups=1001(alice)\n", ""⟩
  else Except.ok ⟨0, "", ""⟩

/-! ## ConfigGrammar: `parseSSHConfig` from `src/sshConfig.js` -/

/-- JavaScript `parseInt(value, 10)`: skip leading whitespace, an optional
single sign, then the longest prefix of decimal digits; no digits means
`NaN`, modelled as `none`. -/
def jsParseInt10 (s : String) : Option Int :=
  let l := s.data.dropWhile isJsWhitespace
  let signed : Int × List Char :=
    match l with
    | c :: rest =>
      if c = '-' then (-1, rest)
      else if c = '+' then (1, rest)
      else (1, l)
    | [] => (1, [])
  let ds := signed.2.takeWhile (fun c => '0' ≤ c && c ≤ '9')
  if ds.isEmpty then none
  else some (signed.1 * (ds.foldl (fun acc c => acc * 10 + (c.toNat - 48)) 0 : Nat))

/-- The regex `/^Host\s+(.+)$/i` applied to a trimmed line, returning the
capture: a case-insensitive `Host`, at least one whitespace character, then
the whole remainder (which must be non-empty and contain no line
terminator).  On a trimmed line the remainder after the maximal whitespace
run is exactly the greedy capture. -/
def matchHostLine (l : List Char) : Option (List Char) :=
  match l with
  | a :: b :: c :: d :: rest =>
    if (a = 'H' || a = 'h') && (b = 'O' || b = 'o') &&
       (c = 'S' || c = 's') && (d = 'T' || d = 't') then
      if (rest.takeWhile isJsWhitespace).isEmpty ||
         (rest.dropWhile isJsWhitespace).isEmpty ||
         !((rest.dropWhile isJsWhitespace).all isDotChar) then none
      else some (rest.dropWhile isJsWhitespace)
    else none
  | _ => none

/-- The regex `/^(\w+)\s+(.+)$/` applied to a trimmed line, returning the
two captures: the maximal leading word-character run, at least one
whitespace character, then the whole remainder. -/
def matchPropLine (l : List Char) : Option (String × String) :=
  if (l.takeWhile isWordChar).isEmpty ||
     ((l.dropWhile isWordChar).takeWhile isJsWhitespace).isEmpty ||
     ((l.dropWhile isWordChar).dropWhile isJsWhitespace).isEmpty ||
     !(((l.dropWhile isWordChar).dropWhile isJsWhitespace).all isDotChar) then none
  else some (⟨l.takeWhile isWordChar⟩, ⟨(l.dropWhile isWordChar).dropWhile isJsWhitespace⟩)

/-- ASCII lower-casing (`key.toLowerCase()`; keys are `\w+`, hence ASCII). -/
def asciiLower (c : Char) : Char :=
  if 'A' ≤ c && c ≤ 'Z' then Char.ofNat (c.toNat + 32) else c

/-- `key.toLowerCase()` on a string. -/
def asciiLowerStr (s : String) : String := ⟨s.data.map asciiLower⟩

/-- One parsed host block, with the fields and defaults of the object
literal built on a `Host` line: `{ host, hostname: null, user: null,
port: 22, identityFile: null, options: {} }`.  `port : Option Int` models
the JavaScript number field, `none` standing for `NaN`. -/
structure SSHHost where
  host : String
  hostname : Option String
  user : Option String
  port : Option Int
  identityFile : Option String
  options : List (String × String)
deriving DecidableEq

/-- The fresh block started by a `Host` line. -/
def newHost (hostAlias : String) : SSHHost :=
  { host := hostAlias, hostname := none, user := none, port := some 22,
    identityFile := none, options := [] }

/-- Strip one leading quote character (`"` or `'`), as the first
alternative of `replace(/^["']|["']$/g, '')`. -/
def stripLeadQuote : List Char → List Char
  | [] => []
  | c :: rest => if c = '"' || c.toNat = 39 then rest else c :: rest

/-- `value.trim().replace(/^["']|["']$/g, '')` followed by
`replace(/^~/, homedir())`: trim, strip one surrounding quote layer, and
expand a leading `~` to the home directory. -/
def cleanIdentityPath (home : String) (v : String) : String :=
  let t := jsTrimList v.data
  let t := stripLeadQuote t
  let t := (stripLeadQuote t.reverse).reverse
  match t with
  | c :: rest => if c = '~' then home ++ (⟨rest⟩ : String) else ⟨t⟩
  | [] => ⟨t⟩

/-- JavaScript object property assignment `options[key] = value`: update an
existing binding in place, else append. -/
def objSet : List (String × String) → String → String → List (String × String)
  | [], k, v => [(k, v)]
  | (k0, v0) :: rest, k, v =>
    if k0 = k then (k0, v) :: rest else (k0, v0) :: objSet rest k v

/-- The `switch (lowerKey)` over a matched property line: `hostname`,
`user`, `port`, `identityfile` populate typed fields, anything else goes
into `options` keyed by the original-case key. -/
def procPropLine (home : String) (h : SSHHost) (t : String) : SSHHost :=
  match matchPropLine t.data with
  | none => h
  | some (key, value) =>
    let lowerKey := asciiLowerStr key
    if lowerKey = "hostname" then { h with hostname := some value }
    else if lowerKey = "user" then { h with user := some value }
    else if lowerKey = "port" then { h with port := jsParseInt10 value }
    else if lowerKey = "identityfile" then
      { h with identityFile := some (cleanIdentityPath home value) }
    else { h with options := objSet h.options key value }

/-- The parser's loop state: the accumulated `hosts` array and the
`currentHost` being filled in. -/
structure ParseState where
  hosts : List SSHHost
  current : Option SSHHost
deriving DecidableEq

/-- `if (currentHost && currentHost.host) hosts.push(currentHost)` — flush
the in-progress block (its alias, a regex capture, is always non-empty, but
the truthiness test is kept). -/
def flushHost (st : ParseState) : List SSHHost :=
  match st.current with
  | some h => if h.host.isEmpty then st.hosts else st.hosts ++ [h]
  | none => st.hosts

/-- Does the trimmed line start with `#`? -/
def startsHash : List Char → Bool
  | c :: _ => c = '#'
  | [] => false

/-- One iteration of the `for (const line of lines)` loop: trim; skip blank
and comment lines; a `Host` line flushes the previous block and starts a
new one; otherwise, if a block is open, process the line as a property. -/
def procLine (home : String) (st : ParseState) (line : String) : ParseState :=
  if (jsTrim line).data.isEmpty || startsHash (jsTrim line).data then st
  else
    match matchHostLine (jsTrim line).data with
    | some capture => { hosts := flushHost st, current := some (newHost ⟨capture⟩) }
    | none =>
      match st.current with
      | some h => { st with current := some (procPropLine home h (jsTrim line)) }
      | none => st

/-- The full loop over `configContent.split('\n')`, plus the final flush:
the `hosts` array before the wildcard filter. -/
def parseHostsRaw (home : String) (content : String) : List SSHHost :=
  flushHost ((splitLines content).foldl (procLine home) ⟨[], none⟩)

/-- The final filter of `parseSSHConfig`:
`!host.includes('*') && !host.includes('?') && host.hostname`. -/
def validHost (h : SSHHost) : Bool :=
  !(jsIncludes h.host "*") && !(jsIncludes h.host "?") &&
    (match h.hostname with
     | some v => !v.isEmpty
     | none => false)

/-- `parseSSHConfig` applied to configuration text that was successfully
read. -/
def parseSSHConfigText (home : String) (content : String) : List SSHHost :=
  (parseHostsRaw home content).filter validHost

/-- `parseSSHConfig()` including its file handling: a missing file
(`existsSync` false) or a failing `readFileSync` (the catch block) yields
`[]`; otherwise the text is parsed.  The function is total: no error is
ever propagated. -/
def parseSSHConfig (home : String) (file : Except String String) : List SSHHost :=
  match file with
  | Except.error _ => []
  | Except.ok content => parseSSHConfigText home content

/-- Invariant carried by the parser loop: no recorded or in-progress block
has an empty (but set) hostname. -/
def stateOk (st : ParseState) : Prop :=
  (∀ h ∈ st.hosts, h.hostname ≠ some "") ∧
  (∀ h, st.current = some h → h.hostname ≠ some "")

/-- The claim's retention predicate: the alias contains no `*` and no `?`,
and the hostname is non-null. -/
def claimKeeps (h : SSHHost) : Bool :=
  !(jsIncludes h.host "*") && !(jsIncludes h.host "?") && h.hostname.isSome

/-- The effect of a non-`Host` line on the in-progress block: skip blank
and comment lines, otherwise apply the property switch. -/
def blockStep (home : String) (h : SSHHost) (line : String) : SSHHost :=
  if (jsTrim line).data.isEmpty || startsHash (jsTrim line).data then h
  else procPropLine home h (jsTrim line)

/-- The value carried by a line when it is a recognized directive for
`key` (the lower-cased key of the property regex). -/
def dirValue (key : String) (line : String) : Option String :=
  if (jsTrim line).data.isEmpty || startsHash (jsTrim line).data then none
  else
    match matchPropLine (jsTrim line).data with
    | some (k, v) => if asciiLowerStr k = key then some v else none
    | none => none

/-- The value of the last line satisfying `f`, searching from the end. -/
def lastVal (f : String → Option String) : List String → Option String
  | [] => none
  | l :: ls =>
    match lastVal f ls with
    | some v => some v
    | none => f l

/-- An oracle on which an install-key command *fails* (exits non-zero) yet
every execution resolves: `sudo chmod 700 /home/alice/.ssh` returns exit
code 1, everything else exit code 0. -/
def envCodeFail : ExecEnv := fun c =>
  if c = checkUserCmd "alice" then Except.ok ⟨0, "not_found\n", ""⟩
  else if c = "sudo chmod 700 /home/alice/.ssh" then
    Except.ok ⟨1, "", "chmod: cannot access /home/alice/.ssh"⟩
  else Except.ok ⟨0, "", ""⟩

/-- An oracle on which the first install-key command is *rejected* by the
exec channel. -/
def envInstallReject : ExecEnv := fun c =>
  if c = checkUserCmd "alice" then Except.ok ⟨0, "not_found\n", ""⟩
  else if c = "sudo mkdir -p /home/alice/.ssh" then Except.error "channel failure"
  else Except.ok ⟨0, "", ""⟩

/-- An oracle on which every privilege-grant command is rejected. -/
def envSudoFail : ExecEnv := fun c =>
  if c = checkUserCmd "bob" then Except.ok ⟨0, "not_found\n", ""⟩
  else if c = "sudo usermod -aG sudo bob" then
    Except.error "usermod: group sudo does not exist"
  else if c = "sudo usermod -aG wheel bob" then
    Except.error "usermod: group wheel does not exist"
  else if c = "echo \"bob ALL=(ALL) NOPASSWD:ALL\" | sudo tee /etc/sudoers.d/bob" then
    Except.error "tee: /etc/sudoers.d/bob: Permission denied"
  else if c = "sudo chmod 0440 /etc/sudoers.d/bob" then
    Except.error "chmod: cannot access /etc/sudoers.d/bob"
  else Except.ok ⟨0, "", ""⟩

/-- `testNewUserConnection(hostname, port, username, privateKeyPath)` from
`src/sshOperations.js`: open a fresh session as the new user (modelled by
`connect`, which either rejects or yields the new session's oracle), run
`whoami`, and compare its trimmed output with the username; any thrown
error is rethrown as `Connection test failed: …`. -/
def testNewUserConnection (connect : Except String ExecEnv) (username : String) :
    Except String Bool :=
  match connect with
  | Except.error e => Except.error ("Connection test failed: " ++ e)
  | Except.ok env =>
    match env "whoami" with
    | Except.error e => Except.error ("Connection test failed: " ++ e)
    | Except.ok result => Except.ok (jsTrim result.stdout == username)

/-- The decision flow of `setupVPS` (`src/setup.js`) after key generation:
run `setupVPSUser` on the provisioning session, then the confirmation
login; a false test result throws `New user connection test failed`; any
error from either phase propagates to the outer catch. -/
def setupRun (env1 : ExecEnv) (connect2 : Except String ExecEnv)
    (username publicKey : String) : Except String Unit :=
  match (setupVPSUser env1 username publicKey).2 with
  | Except.error e => Except.error e
  | Except.ok _ =>
    match testNewUserConnection connect2 username with
    | Except.error e => Except.error e
    | Except.ok testResult =>
      if testResult then Except.ok () else Except.error "New user connection test failed"

/-- A provisioning oracle on which every step succeeds. -/
def envAllOk : ExecEnv := fun c =>
  if c = checkUserCmd "alice" then Except.ok ⟨0, "not_found\n", ""⟩
  else Except.ok ⟨0, "", ""⟩

/-- A confirmation-session oracle whose `whoami` echoes `root` instead of
the managed user. -/
def envWrongWhoami : ExecEnv := fun c =>
  if c = "whoami" then Except.ok ⟨0, "root\n", ""⟩
  else Except.ok ⟨0, "", ""⟩

/-- The key pair object returned by `generateSSHKeyPair`. -/
structure SSHKeyPair where
  privateKeyPath : String
  publicKeyPath : String
  publicKey : String
deriving DecidableEq

/-- The local effects consumed by `generateSSHKeyPair`: the `ssh-keygen`
invocation (`execSync`), the two `chmodSync` calls, and the
`readFileSync(publicKeyPath, 'utf-8')` whose `.ok` value is the textual
content of the public-key file that `ssh-keygen` wrote. -/
structure KeyGenEnv where
  keygen : Except String Unit
  chmodPriv : Except String Unit
  chmodPub : Except String Unit
  readPub : Except String String

/-- The catch of `generateSSHKeyPair` rethrows as
`Failed to generate SSH key: ${error.message}`. -/
def keyGenFailed (msg : String) : String := "Failed to generate SSH key: " ++ msg

/-- `generateSSHKeyPair(keyName)` from `src/sshOperations.js`: run
`ssh-keygen`, set permissions `600`/`644`, and return the key paths
(`join(keysDir, keyName)` and its `.pub` sibling) together with the
trimmed content of the public-key file; any failure is rethrown wrapped.
(The creation of the keys directory itself happens outside the try block
and is not part of the claim.) -/
def generateSSHKeyPair (fs : KeyGenEnv) (keysDir keyName : String) :
    Except String SSHKeyPair :=
  match fs.keygen with
  | Except.error e => Except.error (keyGenFailed e)
  | Except.ok _ =>
    match fs.chmodPriv with
    | Except.error e => Except.error (keyGenFailed e)
    | Except.ok _ =>
      match fs.chmodPub with
      | Except.error e => Except.error (keyGenFailed e)
      | Except.ok _ =>
        match fs.readPub with
        | Except.error e => Except.error (keyGenFailed e)
        | Except.ok content =>
          Except.ok { privateKeyPath := keysDir ++ "/" ++ keyName,
                      publicKeyPath := keysDir ++ "/" ++ keyName ++ ".pub",
                      publicKey := jsTrim content }

/-! ## Helper lemmas: distinguishing command strings -/

theorem ne_of_head_ne (s t : String) (a b : Char)
    (ha : s.data.head? = some a) (hb : t.data.head? = some b) (hab : a ≠ b) :
    s ≠ t := by
  intro h
  rw [h, hb] at ha
  exact hab (Option.some.inj ha).symm

theorem head_checkUserCmd (u : String) : (checkUserCmd u).data.head? = some 'i' := rfl

theorem head_createUserCmd (u : String) : (createUserCmd u).data.head? = some 's' := rfl

/-- Every privilege-grant or key-install command begins with `s` or `e`,
so none of them is the probe command (which begins with `i`). -/
theorem sudo_ssh_head (u pk : String) (c : String)
    (hc : c ∈ sudoCommands u ∨ c ∈ sshSetupCommands u pk) :
    c.data.head? = some 's' ∨ c.data.head? = some 'e' := by
  rcases hc with hc | hc <;> simp [sudoCommands, sshSetupCommands] at hc <;>
    rcases hc with rfl | rfl | rfl | rfl | rfl <;> first
      | exact Or.inl rfl
      | exact Or.inr rfl

/-! ## C1: a pre-existing user aborts the run before any mutation -/

/-- C1: if the user-existence probe resolves and its output does not
contain `not_found` (the user already exists), `setupVPSUser` aborts with
the already-exists error, having issued only the probe command: no
user-creation, privilege-grant, or key-install command is sent to the
remote session. -/
theorem c1_already_exists_aborts (env : ExecEnv) (u pk : String) (r : CmdResult)
    (hprobe : env (checkUserCmd u) = Except.ok r)
    (hexists : jsIncludes r.stdout "not_found" = false) :
    setupVPSUser env u pk =
      ([checkUserCmd u],
       Except.error (vpsSetupFailed ("User " ++ u ++ " already exists on the VPS")))
    ∧ createUserCmd u ∉ (setupVPSUser env u pk).1
    ∧ (∀ c ∈ sudoCommands u, c ∉ (setupVPSUser env u pk).1)
    ∧ (∀ c ∈ sshSetupCommands u pk, c ∉ (setupVPSUser env u pk).1) := by
  have heq : setupVPSUser env u pk =
      ([checkUserCmd u],
       Except.error (vpsSetupFailed ("User " ++ u ++ " already exists on the VPS"))) := by
    simp [setupVPSUser, hprobe, hexists]
  refine ⟨heq, ?_, ?_, ?_⟩
  · rw [heq]
    simp only [List.mem_singleton]
    exact ne_of_head_ne _ _ 's' 'i' (head_createUserCmd u) (head_checkUserCmd u) (by decide)
  · intro c hc
    rw [heq]
    simp only [List.mem_singleton]
    rcases sudo_ssh_head u pk c (Or.inl hc) with h | h
    · exact ne_of_head_ne _ _ 's' 'i' h (head_checkUserCmd u) (by decide)
    · exact ne_of_head_ne _ _ 'e' 'i' h (head_checkUserCmd u) (by decide)
  · intro c hc
    rw [heq]
    simp only [List.mem_singleton]
    rcases sudo_ssh_head u pk c (Or.inr hc) with h | h
    · exact ne_of_head_ne _ _ 's' 'i' h (head_checkUserCmd u) (by decide)
    · exact ne_of_head_ne _ _ 'e' 'i' h (head_checkUserCmd u) (by decide)

theorem c1_already_exists_aborts_witness :
    setupVPSUser envExists "alice" "PUBKEY" =
      ([checkUserCmd "alice"],
       Except.error (vpsSetupFailed ("User " ++ "alice" ++ " already exists on the VPS"))) :=
  (c1_already_exists_aborts envExists "alice" "PUBKEY"
    ⟨0, "uid=1001(alice) gid=1001(alice) groups=1001(alice)\n", ""⟩
    rfl (by decide)).1

example :
    parseSSHConfigText "/home/u" "Host a\nHostName 1.2.3.4\nUser root\n\nHost *\nHostName ignored\n" =
      [{ host := "a", hostname := some "1.2.3.4", user := some "root",
         port := some 22, identityFile := none, options := [] }] := by decide

example :
    parseHostsRaw "/home/u" "Host a *\nHostName 1.2.3.4" =
      [{ host := "a *", hostname := some "1.2.3.4", user := none,
         port := some 22, identityFile := none, options := [] }] := by decide

example :
    parseSSHConfigText "/home/u" "Host a\nHostName x\nPort abc" =
      [{ host := "a", hostname := some "x", user := none,
         port := none, identityFile := none, options := [] }] := by decide

example :
    parseSSHConfigText "/home/u" "Host a\nHostName h1\nHostName h2\nPort 1\nPort 2" =
      [{ host := "a", hostname := some "h2", user := none,
         port := some 2, identityFile := none, options := [] }] := by decide

example :
    parseSSHConfigText "/home/u" "Host b\nUser root" = [] := by decide

example :
    parseHostsRaw "/home/u" "Host a\nIdentityFile \"~/.ssh/id_rsa\"" =
      [{ host := "a", hostname := none, user := none,
         port := some 22, identityFile := some "/home/u/.ssh/id_rsa", options := [] }] := by decide

/-! ## Parser invariants -/

/-- A `hostname` field, once set, holds a non-empty regex capture. -/
theorem matchPropLine_value_ne_empty (l : List Char) (k v : String)
    (h : matchPropLine l = some (k, v)) : v ≠ "" := by
  unfold matchPropLine at h
  split at h
  · exact absurd h (by simp)
  · rename_i hcond
    simp only [Option.some.injEq, Prod.mk.injEq] at h
    intro hv
    apply hcond
    have hd : (l.dropWhile isWordChar).dropWhile isJsWhitespace = [] := by
      have hc := congrArg String.data (h.2.trans hv)
      exact hc
    simp [hd]

theorem procPropLine_hostname_ne (home : String) (h : SSHHost) (t : String)
    (hh : h.hostname ≠ some "") : (procPropLine home h t).hostname ≠ some "" := by
  unfold procPropLine
  cases hm : matchPropLine t.data with
  | none => exact hh
  | some kv =>
    obtain ⟨k, v⟩ := kv
    have hv := matchPropLine_value_ne_empty t.data k v hm
    by_cases h1 : asciiLowerStr k = "hostname"
    · simp only [h1, if_true]
      intro hc
      exact hv (Option.some.inj hc)
    · by_cases h2 : asciiLowerStr k = "user" <;>
        by_cases h3 : asciiLowerStr k = "port" <;>
          by_cases h4 : asciiLowerStr k = "identityfile" <;>
            simp only [h1, h2, h3, h4, if_true, if_false] <;> exact hh

theorem flushHost_ok (st : ParseState) (hok : stateOk st) :
    ∀ h ∈ flushHost st, h.hostname ≠ some "" := by
  intro h hmem
  unfold flushHost at hmem
  cases hc : st.current with
  | none =>
    rw [hc] at hmem
    exact hok.1 h hmem
  | some h0 =>
    rw [hc] at hmem
    dsimp only at hmem
    by_cases he : h0.host.isEmpty = true
    · rw [if_pos he] at hmem
      exact hok.1 h hmem
    · rw [if_neg he] at hmem
      rcases List.mem_append.1 hmem with hmem | hmem
      · exact hok.1 h hmem
      · rw [List.mem_singleton.1 hmem]
        exact hok.2 h0 hc

theorem procLine_ok (home : String) (st : ParseState) (line : String)
    (hok : stateOk st) : stateOk (procLine home st line) := by
  unfold procLine
  by_cases hskip : ((jsTrim line).data.isEmpty || startsHash (jsTrim line).data) = true
  · rw [if_pos hskip]
    exact hok
  · rw [if_neg hskip]
    cases hm : matchHostLine (jsTrim line).data with
    | some capture =>
      refine ⟨flushHost_ok st hok, ?_⟩
      intro h hh
      cases hh
      simp [newHost]
    | none =>
      cases hc : st.current with
      | none => exact hok
      | some h0 =>
        refine ⟨hok.1, ?_⟩
        intro h hh
        cases hh
        exact procPropLine_hostname_ne home h0 (jsTrim line) (hok.2 h0 hc)

theorem foldl_procLine_ok (home : String) (lines : List String) :
    ∀ st, stateOk st → stateOk (lines.foldl (procLine home) st) := by
  induction lines with
  | nil => intro st h; exact h
  | cons l ls ih =>
    intro st h
    exact ih (procLine home st l) (procLine_ok home st l h)

theorem parseHostsRaw_ok (home content : String) :
    ∀ h ∈ parseHostsRaw home content, h.hostname ≠ some "" := by
  unfold parseHostsRaw
  exact flushHost_ok _ (foldl_procLine_ok home (splitLines content) ⟨[], none⟩
    ⟨by simp, by simp⟩)

/-! ## C5: the wildcard/hostname filter -/

theorem validHost_eq_claimKeeps (h : SSHHost) (hh : h.hostname ≠ some "") :
    validHost h = claimKeeps h := by
  unfold validHost claimKeeps
  cases hc : h.hostname with
  | none => simp
  | some v =>
    have hne : v ≠ "" := fun he => hh (he ▸ hc)
    have hv : v.isEmpty = false :=
      Bool.eq_false_iff.mpr fun hb => hne ((String.isEmpty_iff v).1 hb)
    simp [hv]

/-- C5: the parser returns exactly the parsed blocks whose alias contains
neither `*` nor `?` and whose hostname is non-null, in file order; on the
spec's sample text (`Host a` with a HostName, then `Host *`) it yields
exactly the single entry for alias `a`. -/
theorem c5_filter_wildcards (home : String) :
    (∀ content, parseSSHConfigText home content =
      (parseHostsRaw home content).filter claimKeeps)
    ∧ parseSSHConfigText home
        "Host a\nHostName 1.2.3.4\nUser root\n\nHost *\nHostName ignored\n" =
      [{ host := "a", hostname := some "1.2.3.4", user := some "root",
         port := some 22, identityFile := none, options := [] }] := by
  constructor
  · intro content
    unfold parseSSHConfigText
    exact List.filter_congr fun h hm =>
      validHost_eq_claimKeeps h (parseHostsRaw_ok home content h hm)
  · rfl

/-! ## C7: no exception ever escapes the parser -/

/-- Without any `Host` line, the loop state never changes: no block is ever
opened, so nothing is ever recorded. -/
theorem foldl_procLine_none (home : String) :
    ∀ lines : List String,
      (∀ l ∈ lines, matchHostLine (jsTrim l).data = none) →
      lines.foldl (procLine home) ⟨[], none⟩ = ⟨[], none⟩ := by
  intro lines
  induction lines with
  | nil => intro _; rfl
  | cons l ls ih =>
    intro hnh
    have h1 : procLine home ⟨[], none⟩ l = ⟨[], none⟩ := by
      unfold procLine
      by_cases hskip : ((jsTrim l).data.isEmpty || startsHash (jsTrim l).data) = true
      · rw [if_pos hskip]
      · rw [if_neg hskip, hnh l (List.mem_cons_self l ls)]
    rw [List.foldl_cons, h1]
    exact ih fun x hx => hnh x (List.mem_cons_of_mem l hx)

/-- C7: the parser propagates no error.  A missing or unreadable file (the
`existsSync` guard and the catch block) resolves to `[]`, and text
containing no `Host` line — in particular arbitrary malformed text — also
yields `[]`; the parsing functions are total, so no input makes them
throw. -/
theorem c7_no_error_propagation (home : String) :
    (∀ err, parseSSHConfig home (Except.error err) = [])
    ∧ (∀ content, (∀ l ∈ splitLines content, matchHostLine (jsTrim l).data = none) →
        parseSSHConfigText home content = []) := by
  constructor
  · intro _; rfl
  · intro content hnh
    unfold parseSSHConfigText parseHostsRaw
    rw [foldl_procLine_none home (splitLines content) hnh]
    rfl

theorem c7_no_error_propagation_witness :
    parseSSHConfig "/home/u" (Except.error "ENOENT: no such file or directory") = []
    ∧ parseSSHConfigText "/home/u" "this is not an ssh config\n=== 42 ===\nport; twenty-two" = [] :=
  ⟨(c7_no_error_propagation "/home/u").1 "ENOENT: no such file or directory",
   (c7_no_error_propagation "/home/u").2 "this is not an ssh config\n=== 42 ===\nport; twenty-two"
     (by decide)⟩

/-! ## C9: a Host line with several patterns stays one entry -/

/-- C9: the `Host` regex captures the entire remainder of the line — a line
listing several whitespace-separated patterns produces a single block whose
alias is the whole remainder — and consequently `Host a *` parses to the
single raw block with alias `a *`, which the wildcard filter then drops
even though the pattern `a` alone has no wildcard. -/
theorem c9_host_line_whole_remainder (rest : List Char)
    (hdot : rest.all isDotChar = true)
    (hne : rest.dropWhile isJsWhitespace ≠ []) :
    matchHostLine ('H' :: 'o' :: 's' :: 't' :: ' ' :: rest) =
      some (rest.dropWhile isJsWhitespace)
    ∧ parseHostsRaw "/h" "Host a *\nHostName 1.2.3.4" =
        [{ host := "a *", hostname := some "1.2.3.4", user := none,
           port := some 22, identityFile := none, options := [] }]
    ∧ parseSSHConfigText "/h" "Host a *\nHostName 1.2.3.4" = [] := by
  refine ⟨?_, by decide, by decide⟩
  have hall : (rest.dropWhile isJsWhitespace).all isDotChar = true := by
    rw [List.all_eq_true] at hdot ⊢
    intro x hx
    exact hdot x ((List.dropWhile_sublist isJsWhitespace).subset hx)
  have hTake : ((' ' :: rest).takeWhile isJsWhitespace).isEmpty = false := by
    rw [List.takeWhile_cons_of_pos (by decide)]
    rfl
  have hDrop1 : (' ' :: rest).dropWhile isJsWhitespace = rest.dropWhile isJsWhitespace :=
    List.dropWhile_cons_of_pos (by decide)
  have hDropE : (rest.dropWhile isJsWhitespace).isEmpty = false := by
    cases hd : rest.dropWhile isJsWhitespace
    · exact absurd hd hne
    · rfl
  unfold matchHostLine
  dsimp only
  rw [if_pos (by decide)]
  rw [hDrop1]
  rw [if_neg (by simp [hTake, hDropE, hall])]

theorem c9_host_line_whole_remainder_witness :
    matchHostLine ('H' :: 'o' :: 's' :: 't' :: ' ' :: ['a', ' ', '*']) = some ['a', ' ', '*'] :=
  (c9_host_line_whole_remainder ['a', ' ', '*'] (by decide) (by decide)).1

/-! ## Processing the lines of one host block -/

theorem procLine_of_no_host (home : String) (hs : List SSHHost) (h : SSHHost)
    (line : String) (hnh : matchHostLine (jsTrim line).data = none) :
    procLine home ⟨hs, some h⟩ line = ⟨hs, some (blockStep home h line)⟩ := by
  unfold procLine blockStep
  by_cases hskip : ((jsTrim line).data.isEmpty || startsHash (jsTrim line).data) = true
  · rw [if_pos hskip, if_pos hskip]
  · rw [if_neg hskip, if_neg hskip, hnh]

theorem foldl_procLine_block (home : String) :
    ∀ (lines : List String) (hs : List SSHHost) (h : SSHHost),
      (∀ l ∈ lines, matchHostLine (jsTrim l).data = none) →
      lines.foldl (procLine home) ⟨hs, some h⟩ =
        ⟨hs, some (lines.foldl (blockStep home) h)⟩ := by
  intro lines
  induction lines with
  | nil => intro hs h _; rfl
  | cons l ls ih =>
    intro hs h hnh
    rw [List.foldl_cons, List.foldl_cons,
        procLine_of_no_host home hs h l (hnh l (List.mem_cons_self l ls))]
    exact ih hs (blockStep home h l) fun x hx => hnh x (List.mem_cons_of_mem l hx)

/-- Each line updates exactly the field of its recognized directive, to the
parsed value of that line. -/
theorem blockStep_fields (home : String) (h : SSHHost) (line : String) :
    (blockStep home h line).hostname =
      (match dirValue "hostname" line with | some v => some v | none => h.hostname)
    ∧ (blockStep home h line).user =
      (match dirValue "user" line with | some v => some v | none => h.user)
    ∧ (blockStep home h line).port =
      (match dirValue "port" line with | some v => jsParseInt10 v | none => h.port)
    ∧ (blockStep home h line).identityFile =
      (match dirValue "identityfile" line with
       | some v => some (cleanIdentityPath home v) | none => h.identityFile) := by
  unfold blockStep dirValue
  by_cases hskip : ((jsTrim line).data.isEmpty || startsHash (jsTrim line).data) = true
  · simp [hskip]
  · cases hm : matchPropLine (jsTrim line).data with
    | none => simp [hskip, hm, procPropLine]
    | some kv =>
      obtain ⟨k, v⟩ := kv
      by_cases h1 : asciiLowerStr k = "hostname"
      · simp [hskip, hm, procPropLine, h1]
      · by_cases h2 : asciiLowerStr k = "user"
        · simp [hskip, hm, procPropLine, h1, h2]
        · by_cases h3 : asciiLowerStr k = "port"
          · simp [hskip, hm, procPropLine, h1, h2, h3]
          · by_cases h4 : asciiLowerStr k = "identityfile"
            · simp [hskip, hm, procPropLine, h1, h2, h3, h4]
            · simp [hskip, hm, procPropLine, h1, h2, h3, h4]

theorem foldl_blockStep_hostname (home : String) :
    ∀ (lines : List String) (h : SSHHost),
      (lines.foldl (blockStep home) h).hostname =
        (match lastVal (dirValue "hostname") lines with
         | some v => some v | none => h.hostname) := by
  intro lines
  induction lines with
  | nil => intro h; rfl
  | cons l ls ih =>
    intro h
    rw [List.foldl_cons, ih]
    cases hl : lastVal (dirValue "hostname") ls with
    | some v => simp [lastVal, hl]
    | none => simp [lastVal, hl, (blockStep_fields home h l).1]

theorem foldl_blockStep_user (home : String) :
    ∀ (lines : List String) (h : SSHHost),
      (lines.foldl (blockStep home) h).user =
        (match lastVal (dirValue "user") lines with
         | some v => some v | none => h.user) := by
  intro lines
  induction lines with
  | nil => intro h; rfl
  | cons l ls ih =>
    intro h
    rw [List.foldl_cons, ih]
    cases hl : lastVal (dirValue "user") ls with
    | some v => simp [lastVal, hl]
    | none => simp [lastVal, hl, (blockStep_fields home h l).2.1]

theorem foldl_blockStep_port (home : String) :
    ∀ (lines : List String) (h : SSHHost),
      (lines.foldl (blockStep home) h).port =
        (match lastVal (dirValue "port") lines with
         | some v => jsParseInt10 v | none => h.port) := by
  intro lines
  induction lines with
  | nil => intro h; rfl
  | cons l ls ih =>
    intro h
    rw [List.foldl_cons, ih]
    cases hl : lastVal (dirValue "port") ls with
    | some v => simp [lastVal, hl]
    | none => simp [lastVal, hl, (blockStep_fields home h l).2.2.1]

theorem foldl_blockStep_identityFile (home : String) :
    ∀ (lines : List String) (h : SSHHost),
      (lines.foldl (blockStep home) h).identityFile =
        (match lastVal (dirValue "identityfile") lines with
         | some v => some (cleanIdentityPath home v) | none => h.identityFile) := by
  intro lines
  induction lines with
  | nil => intro h; rfl
  | cons l ls ih =>
    intro h
    rw [List.foldl_cons, ih]
    cases hl : lastVal (dirValue "identityfile") ls with
    | some v => simp [lastVal, hl]
    | none => simp [lastVal, hl, (blockStep_fields home h l).2.2.2]

/-! ## C10: within a block, the last occurrence of a directive wins -/

/-- C10: processing the lines of one host block (no further `Host` line
among them), each recognized typed field of the resulting entry equals the
value parsed from the *last* line carrying that directive — the hostname
and user verbatim, the port through `parseInt(value, 10)`, the identity
file through quote-stripping and tilde-expansion — and keeps its previous
value when no such line exists. -/
theorem c10_last_directive_wins (home : String) (hs : List SSHHost) (h : SSHHost)
    (lines : List String)
    (hnh : ∀ l ∈ lines, matchHostLine (jsTrim l).data = none) :
    lines.foldl (procLine home) ⟨hs, some h⟩ =
      ⟨hs, some (lines.foldl (blockStep home) h)⟩
    ∧ (lines.foldl (blockStep home) h).hostname =
      (match lastVal (dirValue "hostname") lines with
       | some v => some v | none => h.hostname)
    ∧ (lines.foldl (blockStep home) h).user =
      (match lastVal (dirValue "user") lines with
       | some v => some v | none => h.user)
    ∧ (lines.foldl (blockStep home) h).port =
      (match lastVal (dirValue "port") lines with
       | some v => jsParseInt10 v | none => h.port)
    ∧ (lines.foldl (blockStep home) h).identityFile =
      (match lastVal (dirValue "identityfile") lines with
       | some v => some (cleanIdentityPath home v) | none => h.identityFile) :=
  ⟨foldl_procLine_block home lines hs h hnh,
   foldl_blockStep_hostname home lines h,
   foldl_blockStep_user home lines h,
   foldl_blockStep_port home lines h,
   foldl_blockStep_identityFile home lines h⟩

theorem c10_last_directive_wins_witness :
    (["HostName h1", "HostName h2", "User u1", "User u2",
      "Port 7", "Port 9", "IdentityFile f1", "IdentityFile f2"].foldl
        (blockStep "/home/u") (newHost "a")).hostname = some "h2"
    ∧ (["HostName h1", "HostName h2", "User u1", "User u2",
        "Port 7", "Port 9", "IdentityFile f1", "IdentityFile f2"].foldl
          (blockStep "/home/u") (newHost "a")).user = some "u2"
    ∧ (["HostName h1", "HostName h2", "User u1", "User u2",
        "Port 7", "Port 9", "IdentityFile f1", "IdentityFile f2"].foldl
          (blockStep "/home/u") (newHost "a")).port = some 9
    ∧ (["HostName h1", "HostName h2", "User u1", "User u2",
        "Port 7", "Port 9", "IdentityFile f1", "IdentityFile f2"].foldl
          (blockStep "/home/u") (newHost "a")).identityFile = some "f2" := by
  have hth := c10_last_directive_wins "/home/u" [] (newHost "a")
    ["HostName h1", "HostName h2", "User u1", "User u2",
     "Port 7", "Port 9", "IdentityFile f1", "IdentityFile f2"] (by decide)
  exact ⟨hth.2.1.trans (by decide), hth.2.2.1.trans (by decide),
         hth.2.2.2.1.trans (by decide), hth.2.2.2.2.trans (by decide)⟩

/-! ## C8: the port field -/

/-- C8 counterexample: it is not true that every parsed entry's port is an
integer.  `Port abc` stores `parseInt("abc", 10) = NaN` (modelled `none`)
in the retained entry: the claim fails at the concrete input
`Host a\nHostName x\nPort abc`. -/
theorem c8_counterexample_port_nan :
    ¬ (∀ (home content : String), ∀ h ∈ parseSSHConfigText home content,
        ∃ n : Int, h.port = some n) := by
  intro hclaim
  obtain ⟨n, hn⟩ := hclaim "/h" "Host a\nHostName x\nPort abc"
    { host := "a", hostname := some "x", user := none, port := none,
      identityFile := none, options := [] } (by decide)
  exact Option.noConfusion hn

/-- C8 (amended): a fresh block's port defaults to 22; processing the
block's lines (none of them a `Host` line) leaves the port at its default
when no `Port` directive occurs, and otherwise sets it to
`parseInt(value, 10)` of the last `Port` directive's value — which is an
integer when the value has a leading decimal integer and `NaN` (`none`)
otherwise, as the three concrete parses show. -/
theorem c8_port_amended (home x : String) (hs : List SSHHost) (lines : List String)
    (hnh : ∀ l ∈ lines, matchHostLine (jsTrim l).data = none) :
    (newHost x).port = some 22
    ∧ lines.foldl (procLine home) ⟨hs, some (newHost x)⟩ =
        ⟨hs, some (lines.foldl (blockStep home) (newHost x))⟩
    ∧ (lines.foldl (blockStep home) (newHost x)).port =
        (match lastVal (dirValue "port") lines with
         | some v => jsParseInt10 v | none => some 22)
    ∧ parseSSHConfigText "/h" "Host a\nHostName x" =
        [{ host := "a", hostname := some "x", user := none, port := some 22,
           identityFile := none, options := [] }]
    ∧ parseSSHConfigText "/h" "Host a\nHostName x\nPort 2022" =
        [{ host := "a", hostname := some "x", user := none, port := some 2022,
           identityFile := none, options := [] }]
    ∧ parseSSHConfigText "/h" "Host a\nHostName x\nPort abc" =
        [{ host := "a", hostname := some "x", user := none, port := none,
           identityFile := none, options := [] }] :=
  ⟨rfl,
   foldl_procLine_block home lines hs (newHost x) hnh,
   foldl_blockStep_port home lines (newHost x),
   by decide, by decide, by decide⟩

theorem c8_port_amended_witness :
    (newHost "a").port = some 22
    ∧ (["Port abc"].foldl (blockStep "/h") (newHost "a")).port = none := by
  have hth := c8_port_amended "/h" "a" [] ["Port abc"] (by decide)
  exact ⟨hth.1, hth.2.2.1.trans (by decide)⟩

/-! ## C2: failures during the key-install loop -/

/-- If the `i`-th required command rejects and the earlier ones resolve,
the sequential loop stops right there: the commands issued are exactly the
first `i + 1`, and the rejection message is propagated. -/
theorem runSeq_rejects (env : ExecEnv) :
    ∀ (cs : List String) (i : Nat) (hi : i < cs.length) (e : String),
      env (cs.get ⟨i, hi⟩) = Except.error e →
      (∀ j (hj : j < i), ∃ res, env (cs.get ⟨j, Nat.lt_trans hj hi⟩) = Except.ok res) →
      runSeq env cs = (cs.take (i + 1), some e) := by
  intro cs
  induction cs with
  | nil => intro i hi; exact absurd hi (Nat.not_lt_zero i)
  | cons c cs ih =>
    intro i hi e hfail hok
    cases i with
    | zero =>
      have hfail' : env c = Except.error e := hfail
      unfold runSeq
      rw [hfail']
      rfl
    | succ i' =>
      obtain ⟨res, hres⟩ := hok 0 (Nat.succ_pos i')
      have hres' : env c = Except.ok res := hres
      have hfail' : env (cs.get ⟨i', Nat.lt_of_succ_lt_succ hi⟩) = Except.error e := hfail
      have hok' : ∀ j (hj : j < i'),
          ∃ r, env (cs.get ⟨j, Nat.lt_trans hj (Nat.lt_of_succ_lt_succ hi)⟩) = Except.ok r := by
        intro j hj
        obtain ⟨r, hr⟩ := hok (j + 1) (Nat.succ_lt_succ hj)
        exact ⟨r, hr⟩
      unfold runSeq
      rw [hres']
      simp [ih i' (Nat.lt_of_succ_lt_succ hi) e hfail' hok']

/-- C2 (amended): only a *rejected* execution (a transport-level failure of
the exec channel) of one of the key-install commands is fatal: the run
halts with the rejection wrapped as `VPS setup failed: …`, having issued
exactly the probe, the creation, the privilege-grant commands, and the
install commands up to and including the failing one — in particular the
verification command is never issued.  (A key-install command that merely
exits non-zero is not checked and the run proceeds; see the
counterexample.) -/
theorem c2_install_key_rejection_halts (env : ExecEnv) (u pk : String)
    (r rc : CmdResult) (i : Nat) (hi : i < (sshSetupCommands u pk).length) (e : String)
    (hprobe : env (checkUserCmd u) = Except.ok r)
    (hnf : jsIncludes r.stdout "not_found" = true)
    (hcreate : env (createUserCmd u) = Except.ok rc)
    (hfail : env ((sshSetupCommands u pk).get ⟨i, hi⟩) = Except.error e)
    (hok : ∀ j (hj : j < i),
      ∃ res, env ((sshSetupCommands u pk).get ⟨j, Nat.lt_trans hj hi⟩) = Except.ok res) :
    setupVPSUser env u pk =
      (checkUserCmd u :: createUserCmd u ::
         (sudoCommands u ++ (sshSetupCommands u pk).take (i + 1)),
       Except.error (vpsSetupFailed e)) := by
  have hrun := runSeq_rejects env (sshSetupCommands u pk) i hi e hfail hok
  simp [setupVPSUser, hprobe, hnf, hcreate, hrun]

/-- C2 counterexample: it is not true that a run in which one of the
key-install commands fails always halts with an error outcome.  On
`envCodeFail` the `chmod 700` step fails (exit code 1), yet `setupVPSUser`
runs to completion and returns success. -/
theorem c2_counterexample_exit_code_ignored :
    ¬ (∀ (env : ExecEnv) (u pk : String),
        (∃ c ∈ sshSetupCommands u pk,
          (∃ e, env c = Except.error e) ∨
          (∃ res, env c = Except.ok res ∧ res.code ≠ 0)) →
        ∃ e, (setupVPSUser env u pk).2 = Except.error e) := by
  intro hclaim
  obtain ⟨e, he⟩ := hclaim envCodeFail "alice" "PK"
    ⟨"sudo chmod 700 /home/alice/.ssh",
     by simp [sshSetupCommands],
     Or.inr ⟨⟨1, "", "chmod: cannot access /home/alice/.ssh"⟩, rfl, by decide⟩⟩
  have hok : (setupVPSUser envCodeFail "alice" "PK").2 = Except.ok true := rfl
  rw [hok] at he
  exact Except.noConfusion he

theorem c2_install_key_rejection_halts_witness :
    setupVPSUser envInstallReject "alice" "PK" =
      (checkUserCmd "alice" :: createUserCmd "alice" ::
         (sudoCommands "alice" ++ (sshSetupCommands "alice" "PK").take 1),
       Except.error (vpsSetupFailed "channel failure")) :=
  c2_install_key_rejection_halts envInstallReject "alice" "PK"
    ⟨0, "not_found\n", ""⟩ ⟨0, "", ""⟩ 0 (by decide) "channel failure"
    rfl (by decide) rfl rfl
    (fun j hj => absurd hj (Nat.not_lt_zero j))

/-! ## C3: the privilege-grant step is best-effort -/

/-- The sequential loop always issues the first command of a non-empty
list. -/
theorem runSeq_fst_cons (env : ExecEnv) (c : String) (cs : List String) :
    ∃ t, (runSeq env (c :: cs)).1 = c :: t := by
  unfold runSeq
  cases env c with
  | error e => exact ⟨[], rfl⟩
  | ok res => exact ⟨(runSeq env cs).1, rfl⟩

/-- Once the run is past user creation, its trace always contains every
privilege-grant command followed by the key-install commands actually
issued. -/
theorem setupVPSUser_trace_after_create (env : ExecEnv) (u pk : String)
    (r rc : CmdResult)
    (hprobe : env (checkUserCmd u) = Except.ok r)
    (hnf : jsIncludes r.stdout "not_found" = true)
    (hcreate : env (createUserCmd u) = Except.ok rc) :
    ∃ rest, (setupVPSUser env u pk).1 =
      checkUserCmd u :: createUserCmd u ::
        (sudoCommands u ++ ((runSeq env (sshSetupCommands u pk)).1 ++ rest)) := by
  unfold setupVPSUser
  rw [hprobe]
  simp only [hnf, Bool.not_true, Bool.false_eq_true, if_false]
  rw [hcreate]
  cases hrs : runSeq env (sshSetupCommands u pk) with
  | mk tr o =>
    cases o with
    | some e => exact ⟨[], by simp⟩
    | none =>
      cases hv : env (verifySetupCmd u) with
      | error e => exact ⟨[verifySetupCmd u], by simp⟩
      | ok verify =>
        by_cases hc : verify.code ≠ 0
        · exact ⟨[verifySetupCmd u], by simp [hc]⟩
        · exact ⟨[verifySetupCmd u], by simp [hc]⟩

/-- C3: even when every privilege-grant command fails, the run does not
halt there: every privilege-grant command is issued (each failure is
caught and discarded), and the run proceeds to the key-install step — its
first command, the `.ssh` directory creation, is issued as well. -/
theorem c3_privilege_grant_best_effort (env : ExecEnv) (u pk : String)
    (r rc : CmdResult)
    (hprobe : env (checkUserCmd u) = Except.ok r)
    (hnf : jsIncludes r.stdout "not_found" = true)
    (hcreate : env (createUserCmd u) = Except.ok rc)
    (_hfailAll : ∀ c ∈ sudoCommands u, ∃ e, env c = Except.error e) :
    (∀ c ∈ sudoCommands u, c ∈ (setupVPSUser env u pk).1)
    ∧ ("sudo mkdir -p /home/" ++ u ++ "/.ssh") ∈ (setupVPSUser env u pk).1 := by
  obtain ⟨rest, htr⟩ := setupVPSUser_trace_after_create env u pk r rc hprobe hnf hcreate
  constructor
  · intro c hc
    rw [htr]
    simp [hc]
  · obtain ⟨t, ht⟩ := runSeq_fst_cons env ("sudo mkdir -p /home/" ++ u ++ "/.ssh")
      (List.tail (sshSetupCommands u pk))
    rw [htr]
    have hcons : sshSetupCommands u pk =
        ("sudo mkdir -p /home/" ++ u ++ "/.ssh") :: List.tail (sshSetupCommands u pk) := rfl
    rw [hcons, ht]
    simp

theorem c3_privilege_grant_best_effort_witness :
    ("sudo mkdir -p /home/" ++ "bob" ++ "/.ssh") ∈ (setupVPSUser envSudoFail "bob" "PK").1 :=
  (c3_privilege_grant_best_effort envSudoFail "bob" "PK"
    ⟨0, "not_found\n", ""⟩ ⟨0, "", ""⟩ rfl (by decide) rfl
    (fun c hc => by
      simp only [sudoCommands, List.mem_cons, List.not_mem_nil, or_false] at hc
      rcases hc with rfl | rfl | rfl | rfl <;> exact ⟨_, rfl⟩)).2

/-! ## C4: the confirmation login (`testNewUserConnection` and `setupVPS`) -/

/-- C4: when provisioning succeeds but the confirmation login's `whoami`
echoes a username other than the managed user, the run's outcome is the
dedicated verification failure: not success, and not any step failure (no
`VPS setup failed: …` message). -/
theorem c4_wrong_whoami_verification_failed (env1 : ExecEnv)
    (connect2 : Except String ExecEnv) (env2 : ExecEnv) (u pk : String) (r : CmdResult)
    (hsetup : (setupVPSUser env1 u pk).2 = Except.ok true)
    (hconn : connect2 = Except.ok env2)
    (hwho : env2 "whoami" = Except.ok r)
    (hmismatch : jsTrim r.stdout ≠ u) :
    setupRun env1 connect2 u pk = Except.error "New user connection test failed"
    ∧ setupRun env1 connect2 u pk ≠ Except.ok ()
    ∧ (∀ s, setupRun env1 connect2 u pk ≠ Except.error (vpsSetupFailed s)) := by
  have hbeq : (jsTrim r.stdout == u) = false := by
    rw [beq_eq_false_iff_ne]
    exact hmismatch
  have heq : setupRun env1 connect2 u pk = Except.error "New user connection test failed" := by
    simp [setupRun, hsetup, testNewUserConnection, hconn, hwho, hbeq]
  refine ⟨heq, ?_, ?_⟩
  · rw [heq]
    simp
  · intro s
    rw [heq]
    intro hcontr
    have hmsg : "New user connection test failed" = vpsSetupFailed s :=
      Except.error.inj hcontr
    exact ne_of_head_ne "New user connection test failed" (vpsSetupFailed s)
      'N' 'V' rfl rfl (by decide) hmsg

theorem c4_wrong_whoami_verification_failed_witness :
    setupRun envAllOk (Except.ok envWrongWhoami) "alice" "PK" =
      Except.error "New user connection test failed" :=
  (c4_wrong_whoami_verification_failed envAllOk (Except.ok envWrongWhoami)
    envWrongWhoami "alice" "PK" ⟨0, "root\n", ""⟩ rfl rfl rfl (by decide)).1

/-! ## C6: `generateSSHKeyPair` round-trip -/

/-- C6: whenever generation succeeds, the returned `publicKey` string is
exactly the trimmed textual content of the written public-key file, and
the returned public path is the `.pub` file the content was read from. -/
theorem c6_public_key_roundtrip (fs : KeyGenEnv) (keysDir keyName content : String)
    (kp : SSHKeyPair)
    (hread : fs.readPub = Except.ok content)
    (hgen : generateSSHKeyPair fs keysDir keyName = Except.ok kp) :
    kp.publicKey = jsTrim content
    ∧ kp.publicKeyPath = keysDir ++ "/" ++ keyName ++ ".pub" := by
  unfold generateSSHKeyPair at hgen
  split at hgen
  · simp at hgen
  · split at hgen
    · simp at hgen
    · split at hgen
      · simp at hgen
      · split at hgen
        · simp at hgen
        · rename_i content' heq
          rw [hread] at heq
          injection heq with hc
          subst hc
          injection hgen with hkp
          rw [← hkp]
          exact ⟨rfl, rfl⟩

theorem c6_public_key_roundtrip_witness :
    ({ privateKeyPath := "/app/.ssh-keys/k1", publicKeyPath := "/app/.ssh-keys/k1.pub",
       publicKey := "ssh-ed25519 AAAA aqoo-managed-k1" } : SSHKeyPair).publicKey =
      jsTrim " ssh-ed25519 AAAA aqoo-managed-k1\n" :=
  (c6_public_key_roundtrip
    ⟨Except.ok (), Except.ok (), Except.ok (),
     Except.ok " ssh-ed25519 AAAA aqoo-managed-k1\n"⟩
    "/app/.ssh-keys" "k1" " ssh-ed25519 AAAA aqoo-managed-k1\n"
    { privateKeyPath := "/app/.ssh-keys/k1", publicKeyPath := "/app/.ssh-keys/k1.pub",
      publicKey := "ssh-ed25519 AAAA aqoo-managed-k1" }
    rfl rfl).1

end Aqoo
